import Mathlib

/-!
Verification development for the hash-routing SPA in `src/app.js`
(regions → cities → attractions browser).

The JavaScript source is shallowly embedded: entities become structures with
optional string fields (a missing JS field is `none`), the loosely typed
dataset becomes an inductive that separates the bare-array shape from
non-array shapes, and the platform primitives `encodeURIComponent` /
`decodeURIComponent` are modelled executably at the character level
(UTF-8 percent escapes, failure as `none`). JS truthiness of strings
(empty string is falsy) and the `String(undefined) = "undefined"`
coercion are modelled explicitly, since the source relies on both.
-/

namespace App

/-- JS truthiness for an optional string field: a missing field and the
empty string are falsy. Models expressions like `item.slug` used as a
condition in `app.js`. -/
def strTruthy : Option String → Bool
  | none => false
  | some s => s ≠ ""

/-- JS `a || b` for an optional string field with a string default:
returns the field value when truthy, otherwise the default. Models the
chains `r.region || r.name || r.title || ''` in `app.js`. -/
def jsOr (o : Option String) (d : String) : String :=
  match o with
  | some s => if s = "" then d else s
  | none => d

/-- JS `String(x)` on an optional string field: stringifies a missing
field to the literal text "undefined", as in `String(r.slug)` at
`app.js:60`. -/
def jsStr : Option String → String
  | none => "undefined"
  | some s => s

/-- Characters left unescaped by `encodeURIComponent`:
A-Z a-z 0-9 and - _ . ! ~ * ( ) and the apostrophe (code 39). -/
def isUnreservedChar (c : Char) : Bool :=
  let n := c.toNat
  (65 ≤ n && n ≤ 90) || (97 ≤ n && n ≤ 122) || (48 ≤ n && n ≤ 57) ||
  n == 45 || n == 95 || n == 46 || n == 33 || n == 126 || n == 42 ||
  n == 39 || n == 40 || n == 41

/-- UTF-8 bytes of a unicode scalar value. -/
def utf8Bytes (n : Nat) : List Nat :=
  if n < 0x80 then [n]
  else if n < 0x800 then [0xC0 + n / 64, 0x80 + n % 64]
  else if n < 0x10000 then [0xE0 + n / 4096, 0x80 + n / 64 % 64, 0x80 + n % 64]
  else [0xF0 + n / 262144, 0x80 + n / 4096 % 64, 0x80 + n / 64 % 64, 0x80 + n % 64]

/-- Uppercase hex digit for a value below 16. -/
def hexDigitChar (n : Nat) : Char :=
  if n < 10 then Char.ofNat (48 + n) else Char.ofNat (55 + n)

/-- Percent escape of one byte, e.g. 233 is unused but 195 gives "%C3". -/
def pctByte (b : Nat) : List Char :=
  ['%', hexDigitChar (b / 16), hexDigitChar (b % 16)]

/-- Model of the JS builtin `encodeURIComponent`: unreserved characters
pass through, every other character is replaced by the percent escapes of
its UTF-8 bytes. -/
def encodeURIComponent (s : String) : String :=
  String.mk ((s.data.map fun c =>
    if isUnreservedChar c then [c]
    else ((utf8Bytes c.toNat).map pctByte).flatten).flatten)

/-- Value of a hex digit character (both cases accepted), or `none`. -/
def hexVal (c : Char) : Option Nat :=
  let n := c.toNat
  if 48 ≤ n ∧ n ≤ 57 then some (n - 48)
  else if 65 ≤ n ∧ n ≤ 70 then some (n - 55)
  else if 97 ≤ n ∧ n ≤ 102 then some (n - 87)
  else none

/-- Character-level worker for `decodeURIComponent`. Percent escapes are
decoded as UTF-8 (continuation bytes must themselves be percent escapes);
malformed escapes, invalid lead or continuation bytes, overlong forms,
surrogates and out-of-range code points all fail with `none`, which models
the `URIError` thrown by the JS builtin. -/
def decodeAux : List Char → Option (List Char)
  | [] => some []
  | '%' :: h1 :: h2 :: rest =>
    match hexVal h1, hexVal h2 with
    | some a, some b =>
      let byte := 16 * a + b
      if byte < 0x80 then
        (decodeAux rest).map (Char.ofNat byte :: ·)
      else if byte < 0xC2 then
        none
      else if byte < 0xE0 then
        match rest with
        | '%' :: h3 :: h4 :: rest2 =>
          match hexVal h3, hexVal h4 with
          | some a2, some b2 =>
            let byte2 := 16 * a2 + b2
            if 0x80 ≤ byte2 ∧ byte2 < 0xC0 then
              (decodeAux rest2).map
                (Char.ofNat ((byte - 0xC0) * 64 + (byte2 - 0x80)) :: ·)
            else none
          | _, _ => none
        | _ => none
      else if byte < 0xF0 then
        match rest with
        | '%' :: h3 :: h4 :: '%' :: h5 :: h6 :: rest2 =>
          match hexVal h3, hexVal h4, hexVal h5, hexVal h6 with
          | some a2, some b2, some a3, some b3 =>
            let byte2 := 16 * a2 + b2
            let byte3 := 16 * a3 + b3
            if 0x80 ≤ byte2 ∧ byte2 < 0xC0 ∧ 0x80 ≤ byte3 ∧ byte3 < 0xC0 then
              let cp := (byte - 0xE0) * 4096 + (byte2 - 0x80) * 64 + (byte3 - 0x80)
              if 0x800 ≤ cp ∧ ¬ (0xD800 ≤ cp ∧ cp ≤ 0xDFFF) then
                (decodeAux rest2).map (Char.ofNat cp :: ·)
              else none
            else none
          | _, _, _, _ => none
        | _ => none
      else if byte < 0xF5 then
        match rest with
        | '%' :: h3 :: h4 :: '%' :: h5 :: h6 :: '%' :: h7 :: h8 :: rest2 =>
          match hexVal h3, hexVal h4, hexVal h5, hexVal h6, hexVal h7, hexVal h8 with
          | some a2, some b2, some a3, some b3, some a4, some b4 =>
            let byte2 := 16 * a2 + b2
            let byte3 := 16 * a3 + b3
            let byte4 := 16 * a4 + b4
            if 0x80 ≤ byte2 ∧ byte2 < 0xC0 ∧ 0x80 ≤ byte3 ∧ byte3 < 0xC0 ∧
               0x80 ≤ byte4 ∧ byte4 < 0xC0 then
              let cp := (byte - 0xF0) * 262144 + (byte2 - 0x80) * 4096 +
                        (byte3 - 0x80) * 64 + (byte4 - 0x80)
              if 0x10000 ≤ cp ∧ cp ≤ 0x10FFFF then
                (decodeAux rest2).map (Char.ofNat cp :: ·)
              else none
            else none
          | _, _, _, _, _, _ => none
        | _ => none
      else none
    | _, _ => none
  | '%' :: _ => none
  | c :: rest => (decodeAux rest).map (c :: ·)

/-- Model of the JS builtin `decodeURIComponent`; `none` models a thrown
`URIError`. -/
def decodeURIComponent (s : String) : Option String :=
  (decodeAux s.data).map String.mk

/-- Whitespace characters recognised by the JS regex class used in
`replace(/\s+/g, ...)`: ASCII whitespace plus NBSP, BOM and the line and
paragraph separators. -/
def isJsWs (c : Char) : Bool :=
  let n := c.toNat
  n == 32 || n == 9 || n == 10 || n == 13 || n == 11 || n == 12 ||
  n == 160 || n == 65279 || n == 8232 || n == 8233

/-- Worker for `replace(/\s+/g, a hyphen)`: each maximal run of whitespace
becomes a single hyphen. The flag records whether the previous character
was part of a whitespace run already replaced. -/
def collapseAux (prevWs : Bool) : List Char → List Char
  | [] => []
  | c :: rest =>
    if isJsWs c then
      if prevWs then collapseAux true rest
      else '-' :: collapseAux true rest
    else c :: collapseAux false rest

/-- Model of `s.replace(/\s+/g, a hyphen)` from `app.js:52`. -/
def collapseWs (s : String) : String :=
  String.mk (collapseAux false s.data)

/-- Model of JS `toLowerCase` restricted to ASCII letters (the concrete
inputs in this development contain no non-ASCII uppercase letters). -/
def toLowerStr (s : String) : String :=
  String.mk (s.data.map Char.toLower)

/-- Shape of the objects handed to `getSlug` in `app.js` (either a real
entity or the ad-hoc object literal with a single `name` field); a missing
JS field is `none`. -/
structure Item where
  slug : Option String := none
  name : Option String := none
  title : Option String := none
deriving DecidableEq

/-- Slug derivation branch of `getSlug` (`app.js:52`):
`encodeURIComponent(String(item.name || item.title || '').toLowerCase().replace(...))`. -/
def deriveSlug (it : Item) : String :=
  encodeURIComponent (collapseWs (toLowerStr (jsOr it.name (jsOr it.title ""))))

/-- Model of `getSlug` (`app.js:48-53`): a missing item gives the empty
string; a truthy `slug` field is returned verbatim; otherwise the slug is
derived from the name fields. Note the JS truthiness check: an explicit
slug equal to the empty string falls through to derivation. -/
def getSlug (item : Option Item) : String :=
  match item with
  | none => ""
  | some it =>
    match it.slug with
    | some s => if s = "" then deriveSlug it else s
    | none => deriveSlug it

/-- Attraction entity: relevant fields of the landmark objects in the
dataset. -/
structure Attraction where
  name : Option String := none
  title : Option String := none
  slug : Option String := none
  description : Option String := none
deriving DecidableEq

/-- View of an attraction as a `getSlug` argument. -/
def Attraction.toItem (a : Attraction) : Item :=
  { slug := a.slug, name := a.name, title := a.title }

/-- City entity; `landmarks` is `none` when the field is missing or not an
array (`Array.isArray` fails). -/
structure City where
  city : Option String := none
  name : Option String := none
  title : Option String := none
  slug : Option String := none
  landmarks : Option (List Attraction) := none
deriving DecidableEq

/-- Region entity; `cities` is `none` when the field is missing or not an
array. -/
structure Region where
  region : Option String := none
  name : Option String := none
  title : Option String := none
  slug : Option String := none
  cities : Option (List City) := none
deriving DecidableEq

/-- Top-level dataset value: the bare array of regions the code expects,
the wrapped object shape `{regions: [...]}` seen in the wild, or a null
or otherwise non-array value. -/
inductive Dataset where
  | arr (regions : List Region)
  | wrapped (regions : List Region)
  | nullv
deriving DecidableEq

/-- `Array.isArray(data)` on a dataset value. -/
def Dataset.isArr : Dataset → Bool
  | .arr _ => true
  | _ => false

/-- Display name selected by `findRegion` (`app.js:59`):
`r.region || r.name || r.title || ''` — the domain alias comes first. -/
def regionDisplayName (r : Region) : String :=
  jsOr r.region (jsOr r.name (jsOr r.title ""))

/-- Derived slug used by `findRegion`: `getSlug({name: regionName})`. -/
def regionDerivedSlug (r : Region) : String :=
  getSlug (some { name := some (regionDisplayName r) })

/-- Match predicate of `findRegion` (`app.js:58-61`): derived-slug equality
or stringified explicit-slug equality. No percent-decoding happens at this
level. -/
def regionMatches (r : Region) (slug : String) : Bool :=
  regionDerivedSlug r == slug || jsStr r.slug == slug

/-- Model of `findRegion` (`app.js:56-62`): `null` for a non-array dataset,
otherwise the first region matching the candidate slug. -/
def findRegion (d : Dataset) (slug : String) : Option Region :=
  match d with
  | .arr rs => rs.find? (fun r => regionMatches r slug)
  | _ => none

/-- Display name selected by `findCity` (`app.js:68`):
`c.city || c.name || c.title || ''`. -/
def cityDisplayName (c : City) : String :=
  jsOr c.city (jsOr c.name (jsOr c.title ""))

/-- Derived slug used by `findCity`. -/
def cityDerivedSlug (c : City) : String :=
  getSlug (some { name := some (cityDisplayName c) })

/-- Match predicate of `findCity` (`app.js:67-70`). -/
def cityMatches (c : City) (slug : String) : Bool :=
  cityDerivedSlug c == slug || jsStr c.slug == slug

/-- Model of `findCity` (`app.js:65-71`): `null` when the region is `null`
or its `cities` field is not an array, otherwise the first matching city
of that region. -/
def findCity (region : Option Region) (slug : String) : Option City :=
  match region with
  | none => none
  | some r =>
    match r.cities with
    | some cs => cs.find? (fun c => cityMatches c slug)
    | none => none

/-- The `safeDecode` helper of `findAttraction` (`app.js:77-84`): empty
input gives the empty string, a decode failure falls back to the raw
string. -/
def safeDecodeA (s : String) : String :=
  if s = "" then ""
  else
    match decodeURIComponent s with
    | some t => t
    | none => s

/-- Match predicate of `findAttraction` (`app.js:86-90`): four-way
comparison — decoded derived slug, exact derived slug, stringified
explicit slug, decoded explicit slug. -/
def attrMatches (a : Attraction) (attrSlug : String) : Bool :=
  let aSlug := getSlug (some a.toItem)
  safeDecodeA aSlug == safeDecodeA attrSlug ||
  aSlug == attrSlug ||
  jsStr a.slug == attrSlug ||
  safeDecodeA (jsOr a.slug "") == safeDecodeA attrSlug

/-- Model of `findAttraction` (`app.js:74-91`). -/
def findAttraction (city : Option City) (slug : String) : Option Attraction :=
  match city with
  | none => none
  | some c =>
    match c.landmarks with
    | some ls => ls.find? (fun a => attrMatches a slug)
    | none => none

/-- Dispatch target chosen by the `router` function before any dataset
lookup happens. -/
inductive Route where
  | home
  | region (r : String)
  | city (r c : String)
  | attraction (r c a : String)
  | notFound
deriving DecidableEq

/-- Split a character list on the slash character, keeping empty pieces
(the JS `split` behaviour); the accumulator holds the current piece in
reverse. -/
def splitSlashAux (cur : List Char) : List Char → List (List Char)
  | [] => [cur.reverse]
  | c :: rest =>
    if c = '/' then cur.reverse :: splitSlashAux [] rest
    else splitSlashAux (c :: cur) rest

/-- Model of `app.js:295-296`: take the raw fragment (defaulting to the
"#/" marker when empty), strip one leading hash character, split on the
slash and discard empty segments. -/
def parseHash (hash : String) : List String :=
  let h := if hash = "" then "#/" else hash
  let stripped :=
    match h.data with
    | '#' :: t => t
    | cs => cs
  ((splitSlashAux [] stripped).map String.mk).filter (fun s => s ≠ "")

/-- The `safeDecode` helper of the `router` (`app.js:310-317`): a missing
or empty segment gives `null`, a decode failure falls back to the raw
segment. -/
def safeDecodeR : Option String → Option String
  | none => none
  | some s => if s = "" then none else some (safeDecodeA s)

/-- Truthiness of an optional decoded segment, as used by the chain of
`if` tests in the `router`. -/
def optTruthy : Option String → Bool
  | none => false
  | some s => s ≠ ""

/-- Dispatch logic of `router` (`app.js:303-343`): the empty segment list
is Home; a leading `region` keyword selects region, city or attraction by
truthiness of the decoded second, third and fourth segments (segments past
the fourth are never inspected); any other leading keyword falls through
to NotFound. -/
def dispatch (parts : List String) : Route :=
  if parts.length = 0 then Route.home
  else if parts.headD "" = "region" then
    let rS := safeDecodeR parts[1]?
    let cS := safeDecodeR parts[2]?
    let aS := safeDecodeR parts[3]?
    if optTruthy rS = false then Route.notFound
    else if optTruthy cS = false then Route.region (rS.getD "")
    else if optTruthy aS = false then Route.city (rS.getD "") (cS.getD "")
    else Route.attraction (rS.getD "") (cS.getD "") (aS.getD "")
  else Route.notFound

/-- Observable outcome of a navigation once the render functions have run
their lookups (markup assembly is out of scope): the resolved entity chain
for each view, or the NotFound page. -/
inductive View where
  | home (regions : List Region)
  | regionV (reg : Region)
  | cityV (reg : Region) (city : City)
  | attractionV (reg : Region) (city : City) (attr : Attraction)
  | notFound
deriving DecidableEq

/-- Region list shown by `renderHome` (`app.js:95`): a non-array dataset
is treated as the empty list. -/
def homeRegions (d : Dataset) : List Region :=
  match d with
  | .arr rs => rs
  | _ => []

/-- Resolution performed by the render functions
(`renderHome` `app.js:94-95`, `renderRegion` `app.js:122-127`,
`renderCity` `app.js:176-180`, `renderAttraction` `app.js:215-221`):
every failed lookup at any level renders the NotFound page. -/
def resolveRoute (d : Dataset) : Route → View
  | .home => .home (homeRegions d)
  | .region r =>
    match findRegion d r with
    | some reg => .regionV reg
    | none => .notFound
  | .city r c =>
    match findRegion d r with
    | none => .notFound
    | some reg =>
      match findCity (some reg) c with
      | none => .notFound
      | some city => .cityV reg city
  | .attraction r c a =>
    match findRegion d r with
    | none => .notFound
    | some reg =>
      match findCity (some reg) c with
      | none => .notFound
      | some city =>
        match findAttraction (some city) a with
        | none => .notFound
        | some attr => .attractionV reg city attr
  | .notFound => .notFound

/-- Full pipeline of one navigation with a successfully loaded dataset:
parse the fragment, dispatch, resolve. -/
def runRoute (d : Dataset) (hash : String) : View :=
  resolveRoute d (dispatch (parseHash hash))

/-- Sample attraction from the concrete scenarios of the design document. -/
def oldTower : Attraction :=
  { name := some "Old Tower", description := some "A tower." }

/-- Sample city containing `oldTower`. -/
def portCity : City :=
  { name := some "Port City", landmarks := some [oldTower] }

/-- Sample region containing `portCity`. -/
def north : Region :=
  { name := some "North", cities := some [portCity] }

/-- Sample dataset in the canonical bare-array shape. -/
def sampleData : Dataset := .arr [north]

/-- Region whose display name needs percent-encoding in its derived slug. -/
def cafeRegion : Region := { name := some "café" }

/-- Region whose domain alias field and name field disagree. -/
def aliasRegion : Region := { region := some "alpha", name := some "beta" }

/-- Item with a present but empty explicit slug and a two-word name. -/
def emptySlugItem : Item := { slug := some "", name := some "A B" }

/-- Region carrying an explicit slug whose display name derives to the
text "undefined". -/
def undefRegionA : Region := { name := some "undefined", slug := some "u" }

/-- Region with no explicit slug field. -/
def undefRegionB : Region := { name := some "b" }

/-- A successful `List.find?` splits its list into a prefix of
non-matching elements, the returned element (which matches), and a tail:
the first match wins and list order is preserved. -/
theorem find?_split {α : Type} (p : α → Bool) :
    ∀ (l : List α) (x : α), l.find? p = some x →
      ∃ l₁ l₂, l = l₁ ++ x :: l₂ ∧ p x = true ∧ ∀ y ∈ l₁, p y = false := by
  intro l
  induction l with
  | nil => intro x h; simp [List.find?] at h
  | cons a as ih =>
    intro x h
    cases hpa : p a with
    | true =>
      rw [List.find?_cons_of_pos _ hpa] at h
      injection h with h2
      subst h2
      exact ⟨[], as, rfl, hpa, by simp⟩
    | false =>
      rw [List.find?_cons_of_neg _ (by simp [hpa])] at h
      obtain ⟨l₁, l₂, heq, hx, hall⟩ := ih x h
      refine ⟨a :: l₁, l₂, by rw [heq, List.cons_append], hx, ?_⟩
      intro y hy
      rcases List.mem_cons.mp hy with rfl | hy2
      · exact hpa
      · exact hall y hy2

/-- A list containing a matching element makes `List.find?` succeed. -/
theorem find?_of_mem {α : Type} (p : α → Bool) :
    ∀ (l : List α) (x : α), x ∈ l → p x = true → ∃ y, l.find? p = some y := by
  intro l
  induction l with
  | nil => intro x hx; cases hx
  | cons a as ih =>
    intro x hx hp
    cases hpa : p a with
    | true => exact ⟨a, List.find?_cons_of_pos _ hpa⟩
    | false =>
      rcases List.mem_cons.mp hx with rfl | hx2
      · rw [hp] at hpa; cases hpa
      · obtain ⟨y, hy⟩ := ih x hx2 hp
        exact ⟨y, by rw [List.find?_cons_of_neg _ (by simp [hpa])]; exact hy⟩

/-- C1: the design document says a fragment with too many segments maps to
NotFound, and the route comment block in the source documents the same
four-shape table; but the dispatcher only inspects the first four
segments, so the five-segment fragment from the documented scenario is
dispatched to the Attraction state instead of NotFound. -/
theorem router_extra_segments :
    dispatch (parseHash "#/region/north/port-city/old-tower/extra") =
      Route.attraction "north" "port-city" "old-tower" ∧
    dispatch (parseHash "#/region/north/port-city/old-tower/extra") ≠ Route.notFound := by
  decide

/-- C2 (counterexample): region-level matching never percent-decodes, so a
region whose derived slug is the encoded "caf%C3%A9" is matched by that
encoded segment but not by its decoded equivalent "café"; the claim that
every lookup level accepts both forms is false. -/
theorem region_decode_counterexample :
    getSlug (some { name := some "café" }) = "caf%C3%A9" ∧
    regionMatches cafeRegion "caf%C3%A9" = true ∧
    safeDecodeA "caf%C3%A9" = "café" ∧
    regionMatches cafeRegion "café" = false ∧
    findRegion (Dataset.arr [cafeRegion]) "café" = none ∧
    runRoute (Dataset.arr [cafeRegion]) "#/region/caf%C3%A9" = View.notFound := by
  decide

/-- C2 (amended): only the attraction-level match tries percent-decoded
equality. An attraction always matches its own slug, and also matches the
percent-decoded form of its slug provided decoding that form again changes
nothing; region- and city-level matching is exactly the two-way comparison
of derived slug and stringified explicit slug, with no decoding step. -/
theorem slug_match_decode_amended :
    (∀ a : Attraction, attrMatches a (getSlug (some a.toItem)) = true) ∧
    (∀ a : Attraction,
      safeDecodeA (safeDecodeA (getSlug (some a.toItem))) =
        safeDecodeA (getSlug (some a.toItem)) →
      attrMatches a (safeDecodeA (getSlug (some a.toItem))) = true) ∧
    (∀ r s, regionMatches r s = true → regionDerivedSlug r = s ∨ jsStr r.slug = s) ∧
    (∀ c s, cityMatches c s = true → cityDerivedSlug c = s ∨ jsStr c.slug = s) := by
  refine ⟨?_, ?_, ?_, ?_⟩
  · intro a
    simp [attrMatches]
  · intro a h
    simp [attrMatches, h]
  · intro r s h
    simpa [regionMatches, Bool.or_eq_true, beq_iff_eq] using h
  · intro c s h
    simpa [cityMatches, Bool.or_eq_true, beq_iff_eq] using h

/-- Witness for the amended C2 at a concrete attraction and region. -/
theorem slug_match_decode_amended_witness :
    attrMatches oldTower (getSlug (some oldTower.toItem)) = true ∧
    attrMatches oldTower (safeDecodeA (getSlug (some oldTower.toItem))) = true ∧
    (regionDerivedSlug north = "north" ∨ jsStr north.slug = "north") :=
  ⟨slug_match_decode_amended.1 oldTower,
   slug_match_decode_amended.2.1 oldTower (by decide),
   slug_match_decode_amended.2.2.1 north "north" (by decide)⟩

/-- C3 (counterexample): the lookup functions consult the domain alias
field first, not last: a region whose alias field says "alpha" and whose
name field says "beta" derives the slug "alpha", so the claimed
name-first priority is false. -/
theorem display_priority_counterexample :
    aliasRegion.region = some "alpha" ∧
    aliasRegion.name = some "beta" ∧
    regionDerivedSlug aliasRegion = "alpha" ∧
    regionMatches aliasRegion "alpha" = true ∧
    regionMatches aliasRegion "beta" = false := by
  decide

/-- C3 (amended): display-name fields are consulted alias first (the
region field for regions, the city field for cities), then name, then
title; the earliest truthy field in that order determines the derived
slug. -/
theorem display_priority_amended :
    (∀ r : Region, ∀ x, r.region = some x → x ≠ "" →
      regionDerivedSlug r = getSlug (some { name := some x })) ∧
    (∀ r : Region, (r.region = none ∨ r.region = some "") →
      ∀ x, r.name = some x → x ≠ "" →
      regionDerivedSlug r = getSlug (some { name := some x })) ∧
    (∀ r : Region, (r.region = none ∨ r.region = some "") →
      (r.name = none ∨ r.name = some "") →
      regionDisplayName r = jsOr r.title "") ∧
    (∀ c : City, ∀ x, c.city = some x → x ≠ "" →
      cityDerivedSlug c = getSlug (some { name := some x })) ∧
    (∀ c : City, (c.city = none ∨ c.city = some "") →
      ∀ x, c.name = some x → x ≠ "" →
      cityDerivedSlug c = getSlug (some { name := some x })) ∧
    (∀ c : City, (c.city = none ∨ c.city = some "") →
      (c.name = none ∨ c.name = some "") →
      cityDisplayName c = jsOr c.title "") := by
  refine ⟨?_, ?_, ?_, ?_, ?_, ?_⟩
  · intro r x hx hne
    simp [regionDerivedSlug, regionDisplayName, jsOr, hx, hne]
  · intro r hr x hx hne
    rcases hr with hr | hr <;>
      simp [regionDerivedSlug, regionDisplayName, jsOr, hr, hx, hne]
  · intro r hr hn
    rcases hr with hr | hr <;> rcases hn with hn | hn <;>
      simp [regionDisplayName, jsOr, hr, hn]
  · intro c x hx hne
    simp [cityDerivedSlug, cityDisplayName, jsOr, hx, hne]
  · intro c hc x hx hne
    rcases hc with hc | hc <;>
      simp [cityDerivedSlug, cityDisplayName, jsOr, hc, hx, hne]
  · intro c hc hn
    rcases hc with hc | hc <;> rcases hn with hn | hn <;>
      simp [cityDisplayName, jsOr, hc, hn]

/-- Witness for the amended C3 at concrete entities. -/
theorem display_priority_amended_witness :
    regionDerivedSlug aliasRegion = getSlug (some { name := some "alpha" }) ∧
    cityDerivedSlug portCity = getSlug (some { name := some "Port City" }) :=
  ⟨display_priority_amended.1 aliasRegion "alpha" rfl (by decide),
   display_priority_amended.2.2.2.2.1 portCity (Or.inl rfl) "Port City" rfl (by decide)⟩

/-- C4 (counterexample): an explicit slug field holding the empty string
is present but falsy, so the code derives a slug from the name instead of
returning the explicit slug verbatim. -/
theorem getSlug_empty_slug_counterexample :
    emptySlugItem.slug = some "" ∧
    getSlug (some emptySlugItem) = "a-b" ∧
    getSlug (some emptySlugItem) ≠ "" := by
  decide

/-- C4 (amended): a present and non-empty (truthy) explicit slug is
returned verbatim; a missing or empty explicit slug falls through to the
derived slug (best display name lower-cased, whitespace runs collapsed to
hyphens, percent-encoded); a missing item, or missing name and title,
gives the empty string. -/
theorem getSlug_amended :
    (∀ it : Item, ∀ s, it.slug = some s → s ≠ "" → getSlug (some it) = s) ∧
    (∀ it : Item, (it.slug = none ∨ it.slug = some "") →
      getSlug (some it) =
        encodeURIComponent (collapseWs (toLowerStr (jsOr it.name (jsOr it.title ""))))) ∧
    getSlug none = "" ∧
    (∀ it : Item, it.slug = none → it.name = none → it.title = none →
      getSlug (some it) = "") := by
  refine ⟨?_, ?_, rfl, ?_⟩
  · intro it s hs hne
    simp [getSlug, hs, hne]
  · intro it h
    rcases h with h | h <;> simp [getSlug, h, deriveSlug]
  · intro it h1 h2 h3
    simp only [getSlug, h1, deriveSlug, h2, h3]
    decide

/-- Witness for the amended C4 at concrete items. -/
theorem getSlug_amended_witness :
    getSlug (some (⟨some "x", some "A B", none⟩ : Item)) = "x" ∧
    getSlug (some (⟨none, some "A B", none⟩ : Item)) = "a-b" ∧
    getSlug (some (⟨none, none, none⟩ : Item)) = "" :=
  ⟨getSlug_amended.1 ⟨some "x", some "A B", none⟩ "x" rfl (by decide),
   getSlug_amended.2.1 ⟨none, some "A B", none⟩ (Or.inl rfl),
   getSlug_amended.2.2.2 ⟨none, none, none⟩ rfl rfl rfl⟩

/-- C5: path resolution short-circuits — a resolved region with an
unresolved city renders NotFound for both the city and attraction routes,
and a resolved region and city with an unresolved attraction renders
NotFound for the attraction route; no fallback to the enclosing view. -/
theorem resolve_short_circuit :
    (∀ d r c a reg, findRegion d r = some reg → findCity (some reg) c = none →
      resolveRoute d (Route.city r c) = View.notFound ∧
      resolveRoute d (Route.attraction r c a) = View.notFound) ∧
    (∀ d r c a reg city, findRegion d r = some reg →
      findCity (some reg) c = some city → findAttraction (some city) a = none →
      resolveRoute d (Route.attraction r c a) = View.notFound) := by
  constructor
  · intro d r c a reg h1 h2
    constructor
    · simp [resolveRoute, h1, h2]
    · simp [resolveRoute, h1, h2]
  · intro d r c a reg city h1 h2 h3
    simp [resolveRoute, h1, h2, h3]

/-- Witness for C5 on the sample dataset. -/
theorem resolve_short_circuit_witness :
    resolveRoute sampleData (Route.city "north" "missing") = View.notFound ∧
    resolveRoute sampleData (Route.attraction "north" "missing" "x") = View.notFound ∧
    resolveRoute sampleData (Route.attraction "north" "port-city" "missing") = View.notFound :=
  ⟨(resolve_short_circuit.1 sampleData "north" "missing" "x" north (by decide) (by decide)).1,
   (resolve_short_circuit.1 sampleData "north" "missing" "x" north (by decide) (by decide)).2,
   resolve_short_circuit.2 sampleData "north" "port-city" "missing" north portCity
     (by decide) (by decide) (by decide)⟩

/-- C6: containment is strict — a city returned by findCity is an element
of the cities list of the given region, an attraction returned by
findAttraction is an element of the landmarks list of the given city, and
a region none of whose own cities match resolves the slug to NotFound
even if some other region lists a matching city. -/
theorem containment_strict :
    (∀ reg s c, findCity (some reg) s = some c → ∃ cs, reg.cities = some cs ∧ c ∈ cs) ∧
    (∀ city s a, findAttraction (some city) s = some a →
      ∃ ls, city.landmarks = some ls ∧ a ∈ ls) ∧
    (∀ reg s, (∀ c ∈ reg.cities.getD [], cityMatches c s = false) →
      findCity (some reg) s = none) := by
  refine ⟨?_, ?_, ?_⟩
  · intro reg s c h
    cases hcs : reg.cities with
    | none => simp [findCity, hcs] at h
    | some cs =>
      simp only [findCity, hcs] at h
      exact ⟨cs, rfl, List.mem_of_find?_eq_some h⟩
  · intro city s a h
    cases hls : city.landmarks with
    | none => simp [findAttraction, hls] at h
    | some ls =>
      simp only [findAttraction, hls] at h
      exact ⟨ls, rfl, List.mem_of_find?_eq_some h⟩
  · intro reg s h
    cases hcs : reg.cities with
    | none => simp [findCity, hcs]
    | some cs =>
      simp only [findCity, hcs, List.find?_eq_none]
      intro x hx
      have hb := h x (by rw [hcs]; simpa using hx)
      simp [hb]

/-- Witness for C6 on the sample dataset. -/
theorem containment_strict_witness :
    (∃ cs, north.cities = some cs ∧ portCity ∈ cs) ∧
    (∃ ls, portCity.landmarks = some ls ∧ oldTower ∈ ls) ∧
    findCity (some north) "elsewhere" = none :=
  ⟨containment_strict.1 north "port-city" portCity (by decide),
   containment_strict.2.1 portCity "old-tower" oldTower (by decide),
   containment_strict.2.2 north "elsewhere" (by decide)⟩

/-- C7: the resolver functions are total and signal failure through
sentinels — safeDecode falls back to the raw string when percent-decoding
fails, and each finder returns either the none sentinel or a found
entity; nothing escapes as an exception in the model. -/
theorem resolvers_return_sentinels :
    (∀ s, s ≠ "" → decodeURIComponent s = none → safeDecodeA s = s) ∧
    (∀ d s, findRegion d s = none ∨ ∃ r, findRegion d s = some r) ∧
    (∀ reg s, findCity reg s = none ∨ ∃ c, findCity reg s = some c) ∧
    (∀ city s, findAttraction city s = none ∨ ∃ a, findAttraction city s = some a) ∧
    (∀ o, safeDecodeR o = none ∨ ∃ t, safeDecodeR o = some t) := by
  refine ⟨?_, ?_, ?_, ?_, ?_⟩
  · intro s h1 h2
    simp [safeDecodeA, h1, h2]
  · intro d s
    cases h : findRegion d s with
    | none => exact Or.inl rfl
    | some r => exact Or.inr ⟨r, rfl⟩
  · intro reg s
    cases h : findCity reg s with
    | none => exact Or.inl rfl
    | some c => exact Or.inr ⟨c, rfl⟩
  · intro city s
    cases h : findAttraction city s with
    | none => exact Or.inl rfl
    | some a => exact Or.inr ⟨a, rfl⟩
  · intro o
    cases h : safeDecodeR o with
    | none => exact Or.inl rfl
    | some t => exact Or.inr ⟨t, rfl⟩

/-- Witness for C7: a malformed percent escape decodes to a failure and
safeDecode falls back to the raw string. -/
theorem resolvers_return_sentinels_witness :
    safeDecodeA "%zz" = "%zz" ∧
    (findRegion sampleData "north" = none ∨ ∃ r, findRegion sampleData "north" = some r) :=
  ⟨resolvers_return_sentinels.1 "%zz" (by decide) (by decide),
   resolvers_return_sentinels.2.1 sampleData "north"⟩

/-- C8: each lookup returns the first match in dataset order — a
successful find splits the container into a prefix of non-matching
entities, the returned matching entity, and the rest, at every level. -/
theorem lookup_first_match :
    (∀ rs s r, findRegion (Dataset.arr rs) s = some r →
      ∃ l₁ l₂, rs = l₁ ++ r :: l₂ ∧ regionMatches r s = true ∧
        ∀ y ∈ l₁, regionMatches y s = false) ∧
    (∀ reg cs s c, reg.cities = some cs → findCity (some reg) s = some c →
      ∃ l₁ l₂, cs = l₁ ++ c :: l₂ ∧ cityMatches c s = true ∧
        ∀ y ∈ l₁, cityMatches y s = false) ∧
    (∀ city ls s a, city.landmarks = some ls → findAttraction (some city) s = some a →
      ∃ l₁ l₂, ls = l₁ ++ a :: l₂ ∧ attrMatches a s = true ∧
        ∀ y ∈ l₁, attrMatches y s = false) := by
  refine ⟨?_, ?_, ?_⟩
  · intro rs s r h
    exact find?_split _ rs r (by simpa [findRegion] using h)
  · intro reg cs s c hcs h
    exact find?_split _ cs c (by simpa [findCity, hcs] using h)
  · intro city ls s a hls h
    exact find?_split _ ls a (by simpa [findAttraction, hls] using h)

/-- Witness for C8 on the sample dataset. -/
theorem lookup_first_match_witness :
    ∃ l₁ l₂, [north] = l₁ ++ north :: l₂ ∧ regionMatches north "north" = true ∧
      ∀ y ∈ l₁, regionMatches y "north" = false :=
  lookup_first_match.1 [north] "north" north (by decide)

/-- C9 (counterexample): the candidate slug "undefined" does match every
entity lacking an explicit slug, but the lookup returns the first
matching entity overall, which can be an earlier entity that has an
explicit slug and whose derived name slug is literally "undefined"; so
the returned entity need not be the first slug-less one. -/
theorem undefined_slug_counterexample :
    findRegion (Dataset.arr [undefRegionA, undefRegionB]) "undefined" = some undefRegionA ∧
    undefRegionA.slug = some "u" ∧
    undefRegionB.slug = none := by
  decide

/-- C9 (amended): stringifying a missing slug field yields the text
"undefined", so the candidate slug "undefined" matches every entity
without an explicit slug at all three levels, and a container holding
such an entity never resolves "undefined" to NotFound; the entity
returned is the first matching one in dataset order. -/
theorem undefined_slug_amended :
    (∀ r : Region, r.slug = none → regionMatches r "undefined" = true) ∧
    (∀ c : City, c.slug = none → cityMatches c "undefined" = true) ∧
    (∀ a : Attraction, a.slug = none → attrMatches a "undefined" = true) ∧
    (∀ rs : List Region, (∃ r ∈ rs, r.slug = none) →
      ∃ w, findRegion (Dataset.arr rs) "undefined" = some w) := by
  refine ⟨?_, ?_, ?_, ?_⟩
  · intro r h
    simp [regionMatches, jsStr, h]
  · intro c h
    simp [cityMatches, jsStr, h]
  · intro a h
    simp [attrMatches, jsStr, h]
  · intro rs h
    obtain ⟨r, hr, hslug⟩ := h
    have hm : regionMatches r "undefined" = true := by simp [regionMatches, jsStr, hslug]
    obtain ⟨w, hw⟩ :=
      find?_of_mem (fun x => regionMatches x "undefined") rs r hr hm
    exact ⟨w, by simpa [findRegion] using hw⟩

/-- Witness for the amended C9 at concrete entities. -/
theorem undefined_slug_amended_witness :
    regionMatches undefRegionB "undefined" = true ∧
    attrMatches oldTower "undefined" = true ∧
    (∃ w, findRegion (Dataset.arr [undefRegionB]) "undefined" = some w) :=
  ⟨undefined_slug_amended.1 undefRegionB rfl,
   undefined_slug_amended.2.2.1 oldTower rfl,
   undefined_slug_amended.2.2.2 [undefRegionB] ⟨undefRegionB, by simp, rfl⟩⟩

/-- C10: the canonical dataset shape is the bare array of regions — for
every non-array dataset value (the wrapped shape included) findRegion
returns none for every slug, and the Home view shows the empty region
list. -/
theorem non_array_dataset (d : Dataset) (h : d.isArr = false) :
    (∀ s, findRegion d s = none) ∧ homeRegions d = [] := by
  cases d with
  | arr rs => simp [Dataset.isArr] at h
  | wrapped rs => exact ⟨fun _ => rfl, rfl⟩
  | nullv => exact ⟨fun _ => rfl, rfl⟩

/-- Witness for C10 at the wrapped dataset shape. -/
theorem non_array_dataset_witness :
    findRegion (Dataset.wrapped [north]) "north" = none ∧
    homeRegions (Dataset.wrapped [north]) = [] :=
  ⟨(non_array_dataset (Dataset.wrapped [north]) (by decide)).1 "north",
   (non_array_dataset (Dataset.wrapped [north]) (by decide)).2⟩

end App
